import Mathlib

/-!
Verification of the trae-agent command-line layer (`trae_agent/cli.py`)
against its natural-language specification.

The development shallowly embeds the configuration-resolution algorithm,
the single-shot task driver (`run`), the interactive command dispatcher
(`interactive`) and the configuration display (`show_config`).  Pure
control flow is translated into Lean functions; the observable effects of
one loop iteration or of an exception handler (prompting, task-request
construction, termination, exit status) are recorded in explicit
structures.  The filesystem is modelled as a partial map from paths to
file contents.
-/

namespace TraeAgent

/-! ### Python string helpers

`py_lower` models Python's `str.lower()` for the command words used by the
dispatcher (all ASCII).  `py_truthy` models Python truthiness of an
optional string (`None` and `""` are falsy). -/

/-- Model of Python `str.lower()`: lower-case every character.  The
dispatcher only compares against ASCII command words, for which
`Char.toLower` agrees with Python. -/
def py_lower (s : String) : String := String.mk (s.data.map Char.toLower)

/-- Model of Python truthiness for an optional string: `None` and the
empty string are falsy, every other string is truthy. -/
def py_truthy : Option String → Bool
  | none => false
  | some s => s ≠ ""

/-! ### Configuration resolution

`resolve_config_value` lives in `trae_agent/utils/config.py`, which is not
part of the provided sources; it is modelled from the spec (section 4.1).
`load_config` (cli.py lines 29-89) applies it to every setting. -/

/-- Modelled from the spec: a source value is "defined" when it is
non-null and non-empty (spec section 4.1).  The emptiness test depends on
the value type, so it is passed in as the predicate `em`. -/
def is_defined {α : Type} (em : α → Bool) : Option α → Bool
  | none => false
  | some v => !(em v)

/-- Modelled from the spec: `resolve(cliValue, fileValue, envValue?, default)`
from `trae_agent/utils/config.py`, absent from the provided sources (spec
section 4.1) — precedence is CLI > config-file > environment variable >
built-in default; the first source holding a defined value wins.  An
absent source (for example, no environment fallback for a setting) is
`none`. -/
def resolve_config_value {α : Type} (em : α → Bool)
    (cli fileVal envVal dflt : Option α) : Option α :=
  if is_defined em cli then cli
  else if is_defined em fileVal then fileVal
  else if is_defined em envVal then envVal
  else dflt

/-- Emptiness test for string-valued settings: the empty string is not a
defined value. -/
def str_is_empty (s : String) : Bool := s = ""

/-- Emptiness test for integer-valued settings (such as `max_steps`): an
integer is never "empty" in the sense of spec section 4.1. -/
def int_is_empty (_ : Int) : Bool := false

/-- The `max_steps` resolution step of `load_config` (cli.py lines 86-88):
`resolved = resolve_config_value(max_steps, config.max_steps)`; the
configuration field is overwritten only when the resolved value is not
`None`.  `fileVal` is `config.max_steps` as loaded from the config file
(or `none` when the file does not set it). -/
def load_config_max_steps (cliVal fileVal : Option Int) : Option Int :=
  match resolve_config_value int_is_empty cliVal fileVal none none with
  | some v => some v
  | none => fileVal

/-- The value Click passes to `interactive` for `--max-steps`
(cli.py lines 231-233): the option has `default=20`, so when it is not
given on the command line the callback still receives `20`. -/
def click_interactive_max_steps (given : Option Int) : Int :=
  given.getD 20

/-- The effective `max_steps` of an interactive session: `interactive`
(cli.py line 248-250) forwards the Click-supplied value to `load_config`. -/
def interactive_effective_max_steps (given fileVal : Option Int) : Option Int :=
  load_config_max_steps (some (click_interactive_max_steps given)) fileVal

/-! ### Interactive command dispatcher (`interactive`, cli.py lines 267-340)

One iteration of the `while True:` loop reads a task line and follows the
source control flow:

* `task.lower() in ["exit", "quit"]` → `break` (before any further prompt);
* `task.lower() == "help"` → help panel, `continue` (before any further prompt);
* otherwise the working-directory prompt `input()` (line 292) runs, and
  only then `task.lower() == "status"` / `"clear"` are checked (each
  `continue`s);
* any remaining input builds `task_args`, calls `new_task` and executes
  the task.
-/

/-- Observable effects of one iteration of the interactive loop, as a
function of the task line read at the prompt.  `constructed_request` also
implies that the task was executed: in the source, `agent.new_task` (line
327) is directly followed by `asyncio.run(agent.execute_task())`. -/
structure IterEffects where
  prompted_working_dir : Bool
  constructed_request : Bool
  terminated : Bool
  showed_help : Bool
  showed_status : Bool
  cleared_screen : Bool
  deriving Repr, DecidableEq

/-- The dispatch of one input line in `interactive` (cli.py lines 270-330),
mirroring the order of the checks in the source: `exit`/`quit` and `help`
are tested before the working-directory prompt; `status` and `clear` only
after it. -/
def interactive_iteration (task : String) : IterEffects :=
  if py_lower task = "exit" ∨ py_lower task = "quit" then
    { prompted_working_dir := false, constructed_request := false,
      terminated := true, showed_help := false, showed_status := false,
      cleared_screen := false }
  else if py_lower task = "help" then
    { prompted_working_dir := false, constructed_request := false,
      terminated := false, showed_help := true, showed_status := false,
      cleared_screen := false }
  else
    -- the working-directory prompt (line 292) runs before the next checks
    if py_lower task = "status" then
      { prompted_working_dir := true, constructed_request := false,
        terminated := false, showed_help := false, showed_status := true,
        cleared_screen := false }
    else if py_lower task = "clear" then
      { prompted_working_dir := true, constructed_request := false,
        terminated := false, showed_help := false, showed_status := false,
        cleared_screen := true }
    else
      { prompted_working_dir := true, constructed_request := true,
        terminated := false, showed_help := false, showed_status := false,
        cleared_screen := false }

/-- How one submitted task ends, from the point of view of the exception
handlers around `asyncio.run(agent.execute_task())`. -/
inductive TaskOutcome where
  | success
  | cancelled
  | failed
  deriving Repr, DecidableEq

/-- What can happen during one iteration of the interactive loop: a task
line is obtained and the iteration runs (with some task outcome if a task
was executed), the input stream ends (`EOFError`), or a keyboard
interrupt arrives while waiting for input. -/
inductive SessionEvent where
  | line (task : String) (outcome : TaskOutcome)
  | endOfInput
  | interruptWhileWaiting
  deriving Repr, DecidableEq

/-- Whether one iteration of the interactive loop terminates the session
(cli.py lines 267-340).  The `try` block spans the whole body, so a
`KeyboardInterrupt` (line 334) or any other `Exception` (line 339) raised
while a task executes is caught and the loop continues; only
`break` after `exit`/`quit` (line 274) and the `EOFError` handler (line
336-338) leave the loop. -/
def session_step_terminates (e : SessionEvent) : Bool :=
  match e with
  | .endOfInput => true
  | .interruptWhileWaiting => false
  | .line task outcome =>
    if (interactive_iteration task).terminated then true
    else
      match outcome with
      | .success => false
      | .cancelled => false
      | .failed => false

/-! ### Single-shot driver (`run`, cli.py lines 134-221) -/

/-- The `task_args` dictionary built by `run` (cli.py lines 198-203). -/
structure TaskArgs where
  project_path : String
  issue : String
  must_patch : String
  patch_path : Option String
  deriving Repr, DecidableEq

/-- Construction of `task_args` in `run` (cli.py lines 198-203):
`"must_patch": "true" if must_patch else "false"`, and `patch_path` is
passed through unchanged (Click supplies `none` when `--patch-path` is not
given). -/
def run_task_args (working_dir task : String) (must_patch : Bool)
    (patch_path : Option String) : TaskArgs :=
  { project_path := working_dir
    issue := task
    must_patch := if must_patch then "true" else "false"
    patch_path := patch_path }

/-- Resolution of the task text in `run` (cli.py lines 167-169): the
filesystem is modelled as a partial map `read_file` from paths to
contents, with `read_file p = some c` exactly when `p` exists, is a
regular file and reading it yields `c`; in that case the task text is the
file contents, otherwise the argument is used verbatim. -/
def run_resolved_task (read_file : String → Option String) (task : String) :
    String :=
  match read_file task with
  | some contents => contents
  | none => task

/-- How driving the task ends, from the point of view of the exception
handlers in `run` (cli.py lines 197-221). -/
inductive DriveOutcome where
  | completed
  | keyboardInterrupt
  | unexpectedError
  deriving Repr, DecidableEq

/-- Process-visible result of the `try`/`except` block of `run`. -/
structure RunReport where
  exit_code : Nat
  reported_partial_trajectory : Bool
  deriving Repr, DecidableEq

/-- The outcome mapping of `run` (cli.py lines 197-221): normal completion
returns (exit status 0); `KeyboardInterrupt` prints the interruption
notice, reports the trajectory path as partial when `trajectory_path` is
truthy, and calls `sys.exit(1)`; any other exception prints diagnostics
and calls `sys.exit(1)` without the partial-trajectory notice. -/
def run_drive_report (outcome : DriveOutcome)
    (trajectory_path : Option String) : RunReport :=
  match outcome with
  | .completed =>
    { exit_code := 0, reported_partial_trajectory := false }
  | .keyboardInterrupt =>
    { exit_code := 1,
      reported_partial_trajectory := py_truthy trajectory_path }
  | .unexpectedError =>
    { exit_code := 1, reported_partial_trajectory := false }

/-- Record of the working-directory handling at `run` startup
(cli.py lines 157-165): `chdir_argument` is the argument `os.chdir` was
called with (`none` when `os.chdir` was never called), `final_cwd` the
process working directory afterwards.  The source guards the whole block
with `if not working_dir:`, first re-assigning `working_dir = os.getcwd()`,
so `os.chdir` only ever runs with the current directory as argument; when
`--working-dir` is supplied no `os.chdir` call happens at all. -/
structure StartupTrace where
  final_cwd : String
  chdir_argument : Option String
  deriving Repr, DecidableEq

/-- The working-directory block of `run` (cli.py lines 157-165), as a
function of the `--working-dir` option and the process working directory
`cwd0` at entry. -/
def run_startup (working_dir : Option String) (cwd0 : String) :
    StartupTrace :=
  if py_truthy working_dir = false then
    -- working_dir = os.getcwd(); os.chdir(working_dir): a no-op change
    { final_cwd := cwd0, chdir_argument := some cwd0 }
  else
    -- no chdir is performed when --working-dir is given
    { final_cwd := cwd0, chdir_argument := none }

/-! ### Configuration display (`show_config`, cli.py lines 347-390)

The `Config` and per-provider settings classes live in
`trae_agent/utils/config.py`, absent from the provided sources; their
field shape is modelled from spec section 3 (model name, credential, max
tokens, temperature, top-p, optional top-k).  The numeric parameters are
modelled as integers; only their rendered string matters here and the
claims under verification do not depend on it. -/

/-- Modelled from the spec: per-provider settings (spec section 3), the
shape read by `show_config`. -/
structure ModelParameters where
  model : Option String
  api_key : Option String
  max_tokens : Int
  temperature : Int
  top_p : Int
  top_k : Int
  deriving Repr, DecidableEq

/-- Python `x or "Not set"` for an optional string field. -/
def str_or_not_set (v : Option String) : String :=
  match v with
  | some s => if s = "" then "Not set" else s
  | none => "Not set"

/-- Python `str(x or "Not set")` for the optional integer `max_steps`
(`0` is falsy in Python). -/
def int_or_not_set (v : Option Int) : String :=
  match v with
  | some n => if n = 0 then "Not set" else toString n
  | none => "Not set"

/-- The rows of one provider table in `show_config` (cli.py lines
374-390): model, an API-key present/absent indicator (`"Set" if
provider_config.api_key else "Not set"`), max tokens, temperature, top-p,
and top-k only for the `anthropic` provider. -/
def provider_table_rows (name : String) (p : ModelParameters) :
    List (String × String) :=
  [("Model", str_or_not_set p.model),
   ("API Key", if py_truthy p.api_key then "Set" else "Not set"),
   ("Max Tokens", toString p.max_tokens),
   ("Temperature", toString p.temperature),
   ("Top P", toString p.top_p)] ++
  (if name = "anthropic" then [("Top K", toString p.top_k)] else [])

/-- The full rendering of `show_config` (cli.py lines 361-390): the
general-settings rows followed by, per provider, a title row and the
provider table rows. -/
def show_config_render (default_provider : Option String)
    (max_steps : Option Int)
    (model_providers : List (String × ModelParameters)) :
    List (String × String) :=
  [("Default Provider", str_or_not_set default_provider),
   ("Max Steps", int_or_not_set max_steps)] ++
  (model_providers.map (fun pr =>
    ("Table", pr.1 ++ " Configuration") :: provider_table_rows pr.1 pr.2)).flatten

/-- Two provider-settings records equal in everything except the
credential, with both credentials present (non-empty): the hypothesis of
the credential-secrecy hyperproperty. -/
def same_but_api_key (p q : ModelParameters) : Prop :=
  p.model = q.model ∧ p.max_tokens = q.max_tokens ∧
  p.temperature = q.temperature ∧ p.top_p = q.top_p ∧ p.top_k = q.top_k ∧
  py_truthy p.api_key = true ∧ py_truthy q.api_key = true

instance (p q : ModelParameters) : Decidable (same_but_api_key p q) := by
  unfold same_but_api_key; infer_instance

/-! ## Helper lemmas -/

/-- The rows of a provider table do not depend on the credential value,
only on its presence: two settings records that agree everywhere else and
both carry a present credential render identically. -/
lemma provider_table_rows_congr (n : String) {p q : ModelParameters}
    (h : same_but_api_key p q) :
    provider_table_rows n p = provider_table_rows n q := by
  obtain ⟨h1, h2, h3, h4, h5, hp, hq⟩ := h
  simp [provider_table_rows, h1, h2, h3, h4, h5, hp, hq]

/-- The dispatcher terminates the session exactly on a (case-insensitive)
`exit` or `quit` line. -/
lemma interactive_iteration_terminated_iff (task : String) :
    (interactive_iteration task).terminated = true ↔
      (py_lower task = "exit" ∨ py_lower task = "quit") := by
  unfold interactive_iteration
  split_ifs with h1 h2 h3 h4 <;> simp_all

/-- One interactive iteration on a task line terminates the session
exactly when the dispatcher does, whatever the outcome of a task that may
have run: both in-task exception handlers continue the loop. -/
lemma session_step_line (t : String) (o : TaskOutcome) :
    session_step_terminates (.line t o) = (interactive_iteration t).terminated := by
  cases o <;>
    (unfold session_step_terminates
     by_cases h : (interactive_iteration t).terminated = true <;> simp [h])

/-! ## Claims -/

/-- Claim C1: for every tuple of optional values (cli, file, env, default),
the configuration resolution function returns the first defined (non-null,
non-empty) value in the exact precedence order CLI > config-file >
environment variable > built-in default, and never returns a
lower-precedence value when a higher-precedence one is defined; the
statement is parametric in the value type and the emptiness test, so it
holds uniformly for every setting resolved through the function (provider,
model, api key, max steps). -/
theorem resolve_config_value_precedence {α : Type} (em : α → Bool)
    (cli fileVal envVal dflt : Option α) :
    (is_defined em cli = true →
      resolve_config_value em cli fileVal envVal dflt = cli) ∧
    (is_defined em cli = false → is_defined em fileVal = true →
      resolve_config_value em cli fileVal envVal dflt = fileVal) ∧
    (is_defined em cli = false → is_defined em fileVal = false →
      is_defined em envVal = true →
      resolve_config_value em cli fileVal envVal dflt = envVal) ∧
    (is_defined em cli = false → is_defined em fileVal = false →
      is_defined em envVal = false →
      resolve_config_value em cli fileVal envVal dflt = dflt) := by
  refine ⟨?_, ?_, ?_, ?_⟩ <;> intros <;> simp [resolve_config_value, *]

/-- Witness for C1: with every source defined, the CLI value wins. -/
theorem resolve_config_value_precedence_witness :
    resolve_config_value str_is_empty (some "cli-model") (some "file-model")
      (some "env-model") (some "dflt-model") = some "cli-model" :=
  (resolve_config_value_precedence str_is_empty (some "cli-model")
      (some "file-model") (some "env-model") (some "dflt-model")).1 (by decide)

/-- Claim C2: in the interactive dispatcher, an input equal
case-insensitively to "exit" or "quit" (including "EXIT") terminates the
session without prompting for a working directory; the inputs "help",
"status" and "clear" never cause a Task Request to be constructed; and any
other non-empty input leads to a working-directory prompt and to
construction and execution of a Task Request. -/
theorem interactive_dispatch_cases (task : String) :
    ((py_lower task = "exit" ∨ py_lower task = "quit") →
      (interactive_iteration task).terminated = true ∧
      (interactive_iteration task).prompted_working_dir = false) ∧
    ((py_lower task = "help" ∨ py_lower task = "status" ∨
        py_lower task = "clear") →
      (interactive_iteration task).constructed_request = false) ∧
    (task ≠ "" →
      py_lower task ≠ "exit" → py_lower task ≠ "quit" →
      py_lower task ≠ "help" → py_lower task ≠ "status" →
      py_lower task ≠ "clear" →
      (interactive_iteration task).prompted_working_dir = true ∧
      (interactive_iteration task).constructed_request = true) := by
  refine ⟨?_, ?_, ?_⟩
  · rintro (h | h) <;> simp [interactive_iteration, h]
  · rintro (h | h | h) <;> simp [interactive_iteration, h]
  · intro _ h1 h2 h3 h4 h5
    simp [interactive_iteration, h1, h2, h3, h4, h5]

/-- Witness for C2: the input "EXIT" terminates the session without a
working-directory prompt. -/
theorem interactive_dispatch_cases_witness :
    (interactive_iteration "EXIT").terminated = true ∧
    (interactive_iteration "EXIT").prompted_working_dir = false :=
  (interactive_dispatch_cases "EXIT").1 (Or.inl (by decide))

/-- Claim C3: when a keyboard interrupt arrives while the task is being
driven in single-shot mode, the process exit status is failure (1), and if
a trajectory path had been created before the interruption it is reported
as a partial trajectory. -/
theorem run_keyboard_interrupt_report (trajectory_path : Option String) :
    (run_drive_report .keyboardInterrupt trajectory_path).exit_code = 1 ∧
    (py_truthy trajectory_path = true →
      (run_drive_report .keyboardInterrupt trajectory_path).reported_partial_trajectory
        = true) := by
  exact ⟨rfl, fun h => by simp [run_drive_report, h]⟩

/-- Witness for C3: with a created trajectory path, an interrupt yields
exit status 1 and the partial-trajectory notice. -/
theorem run_keyboard_interrupt_report_witness :
    (run_drive_report .keyboardInterrupt (some "/tmp/traj.json")).exit_code = 1 ∧
    (run_drive_report .keyboardInterrupt (some "/tmp/traj.json")).reported_partial_trajectory
      = true :=
  ⟨(run_keyboard_interrupt_report (some "/tmp/traj.json")).1,
   (run_keyboard_interrupt_report (some "/tmp/traj.json")).2 (by decide)⟩

/-- Claim C4: the show-config rendering never depends on the literal
credential values: two configurations that differ only in the (non-empty)
credential strings of their providers produce identical output. -/
theorem show_config_credential_noninterference
    (dp : Option String) (ms : Option Int)
    (ps qs : List (String × ModelParameters))
    (h : List.Forall₂
      (fun a b => a.1 = b.1 ∧ same_but_api_key a.2 b.2) ps qs) :
    show_config_render dp ms ps = show_config_render dp ms qs := by
  unfold show_config_render
  congr 1
  induction h with
  | nil => rfl
  | cons hab htail ih =>
    rename_i a b as bs
    simp only [List.map_cons, List.flatten_cons]
    rw [ih]
    obtain ⟨hname, hsame⟩ := hab
    rw [hname, provider_table_rows_congr b.1 hsame]

/-- Witness for C4: two one-provider configurations differing only in
their non-empty API keys render identically. -/
theorem show_config_credential_noninterference_witness :
    show_config_render (some "openai") (some 20)
        [("openai", ⟨some "gpt-4o", some "sk-live-1", 4096, 1, 1, 0⟩)] =
      show_config_render (some "openai") (some 20)
        [("openai", ⟨some "gpt-4o", some "sk-live-2", 4096, 1, 1, 0⟩)] :=
  show_config_credential_noninterference (some "openai") (some 20) _ _
    (List.Forall₂.cons (by exact ⟨rfl, by decide⟩) List.Forall₂.nil)

/-- Claim C5: in single-shot mode, if the task argument is a path to an
existing, readable file, the resolved task text is the file's full
contents; otherwise the task argument string is used verbatim. -/
theorem run_task_file_or_literal (read_file : String → Option String)
    (task : String) :
    (∀ contents, read_file task = some contents →
      run_resolved_task read_file task = contents) ∧
    (read_file task = none → run_resolved_task read_file task = task) := by
  constructor
  · intro c hc; simp [run_resolved_task, hc]
  · intro hn; simp [run_resolved_task, hn]

/-- A one-file filesystem used to exercise the task-text resolution. -/
def demo_fs : String → Option String :=
  fun p => if p = "/tmp/task.txt" then some "fix bug X" else none

/-- Witness for C5: a path naming an existing file resolves to the file's
contents, a non-path string resolves to itself. -/
theorem run_task_file_or_literal_witness :
    run_resolved_task demo_fs "/tmp/task.txt" = "fix bug X" ∧
    run_resolved_task demo_fs "list files" = "list files" :=
  ⟨(run_task_file_or_literal demo_fs "/tmp/task.txt").1 "fix bug X" (by decide),
   (run_task_file_or_literal demo_fs "list files").2 (by decide)⟩

/-- Claim C6: the Task Request's must-patch field is the token "true"
exactly when the must-patch flag is set and "false" when it is unset, and
a supplied patch path is carried through unchanged in the argument set. -/
theorem run_task_args_must_patch_and_path (wd task : String)
    (pp : Option String) (mp : Bool) (p : String) :
    (run_task_args wd task true pp).must_patch = "true" ∧
    (run_task_args wd task false pp).must_patch = "false" ∧
    (run_task_args wd task mp (some p)).patch_path = some p :=
  ⟨rfl, rfl, rfl⟩

/-- Claim C7: the interactive session is never terminated by a task's
outcome: an iteration terminates the session exactly when the input stream
ends or the input line is (case-insensitively) "exit" or "quit"; in
particular a failed or cancelled task, or an interrupt while waiting for
input, returns to awaiting input. -/
theorem session_terminates_iff (e : SessionEvent) :
    session_step_terminates e = true ↔
      (e = .endOfInput ∨
        ∃ task outcome, e = .line task outcome ∧
          (py_lower task = "exit" ∨ py_lower task = "quit")) := by
  cases e with
  | endOfInput => simp [session_step_terminates]
  | interruptWhileWaiting => simp [session_step_terminates]
  | line t o =>
    rw [session_step_line, interactive_iteration_terminated_iff]
    constructor
    · intro h
      exact Or.inr ⟨t, o, rfl, h⟩
    · rintro (h | ⟨t2, o2, heq, h⟩)
      · exact SessionEvent.noConfusion h
      · cases heq
        exact h

/-- Witness for C7: a "quit" line terminates the session even when
paired with a failed task outcome. -/
theorem session_terminates_iff_witness :
    session_step_terminates (.line "quit" .failed) = true :=
  (session_terminates_iff (.line "quit" .failed)).mpr
    (Or.inr ⟨"quit", .failed, rfl, Or.inr (by decide)⟩)

/-- Claim C8 (code behaviour at the failing input): when `--working-dir`
is supplied, `run` never calls `os.chdir` — the guard on line 158 is
`if not working_dir:` — so the process working directory stays unchanged
instead of becoming the supplied directory. -/
theorem run_working_dir_option_ignored :
    (run_startup (some "/tmp/project") "/home/user").final_cwd = "/home/user" ∧
    (run_startup (some "/tmp/project") "/home/user").chdir_argument = none ∧
    (run_startup (some "/tmp/project") "/home/user").final_cwd ≠ "/tmp/project" := by
  refine ⟨rfl, rfl, by decide⟩

/-- Claim C9: the inputs "status" and "clear" cause a working-directory
prompt (consuming one additional input line) before being recognized, and
construct no Task Request, while "exit", "quit" and "help" are recognized
before the prompt. -/
theorem status_clear_prompt_and_consume :
    (interactive_iteration "status").prompted_working_dir = true ∧
    (interactive_iteration "status").constructed_request = false ∧
    (interactive_iteration "clear").prompted_working_dir = true ∧
    (interactive_iteration "clear").constructed_request = false ∧
    (interactive_iteration "exit").prompted_working_dir = false ∧
    (interactive_iteration "quit").prompted_working_dir = false ∧
    (interactive_iteration "help").prompted_working_dir = false := by
  decide

/-- Claim C10: in interactive mode, when the max-steps option is not given
on the command line, Click substitutes its declared default of 20, so the
effective max_steps is always 20 and a max_steps value from the config
file can never take effect. -/
theorem interactive_max_steps_cli_default (fileVal : Option Int) :
    interactive_effective_max_steps none fileVal = some 20 := rfl

end TraeAgent
